import Mathlib

/-!
Shallow embedding of `gas_lift_choke_optimization.py`.

The program defines one class, `GasLiftChokeOptimizer`, with two parallel
pipelines (gas lift and choke): synthetic data generation via the NumPy
global RNG, surrogate training via scikit-learn, and a bounded grid search
`optimize_gas_lift` / `optimize_choke` that evaluates the trained model on a
100-point `np.linspace` grid and returns the `np.argmax` point.

Numerics are embedded over `ℚ`.  External library boundaries (the NumPy
pseudorandom stream, `np.sqrt`, and the scikit-learn `fit` capability) are
abstracted as explicit function parameters; the structure of every method
body is translated statement by statement from the source.
-/

/-- Python exception values observable from the program.  `keyError`,
`attributeError` and `valueError` are the exceptions the source code can
actually raise (dict lookup failure, attribute access on `None`, and the
scikit-learn `train_test_split` size check).  The last three constructors are
the error classes named by the specification's error taxonomy
(`InvalidIntervalError`, `SchemaMismatchError`, `InsufficientDataError`);
no such classes are defined anywhere in the source file, they are included
here only so that claims about them can be stated and compared against what
the code really does. -/
inductive PyErr where
  | keyError : String → PyErr
  | attributeError : String → PyErr
  | valueError : String → PyErr
  | invalidIntervalError : PyErr
  | schemaMismatchError : PyErr
  | insufficientDataError : PyErr
deriving DecidableEq

/-- State of the NumPy global random generator: a deterministic stream of
unit draws fixed by the seed (`np.random.seed(42)` at line 7 of the source),
together with the current position in that stream.  Every call to
`np.random.uniform` / `np.random.normal` of size `n` consumes `n`
consecutive stream positions and advances the cursor. -/
structure RngState where
  stream : Nat → ℚ
  pos : Nat

/-- One draw of `np.random.uniform(lo, hi)` as a deterministic transform of a
unit stream value `u` (inverse-CDF form; the exact numeric transform inside
NumPy is abstracted, the state advance is what matters). -/
def uniformDraw (lo hi u : ℚ) : ℚ := lo + (hi - lo) * u

/-- One draw of `np.random.normal(mu, sigma)` as a deterministic transform of
a unit stream value `u` (the exact shape transform inside NumPy is
abstracted; determinism in the stream value is what matters). -/
def normalDraw (mu sigma u : ℚ) : ℚ := mu + sigma * u

/-- One row of the gas-lift dataframe built at lines 25-30 of the source:
columns `gas_injection_rate`, `pressure_diff`, `water_cut`,
`oil_production`. -/
structure GasRow where
  gas_injection_rate : ℚ
  pressure_diff : ℚ
  water_cut : ℚ
  oil_production : ℚ
deriving DecidableEq

/-- One row of the choke dataframe built at lines 42-47 of the source:
columns `choke_size`, `delta_p`, `glr`, `flow_rate`. -/
structure ChokeRow where
  choke_size : ℚ
  delta_p : ℚ
  glr : ℚ
  flow_rate : ℚ
deriving DecidableEq

/-- Body of `generate_gas_lift_data` (lines 16-31).  The five vectorised
draws consume stream positions in source order: `uniform(1000, 4000, n)` at
positions `pos..pos+n`, `uniform(100, 800, n)` next, then
`uniform(0.5, 5.0, n)`, `uniform(0, 95, n)`, `normal(0, 50, n)`.
`pressure_diff` is the elementwise difference of the first two draws,
`oil = 0.1 * pressure_diff + 50 * gas_injection_rate - 2 * water_cut + noise`
clamped below by `np.maximum(oil, 10)`. -/
def generate_gas_lift_rows (s : RngState) (n : Nat) : List GasRow × RngState :=
  let pd := fun i : Nat =>
    uniformDraw 1000 4000 (s.stream (s.pos + i)) -
      uniformDraw 100 800 (s.stream (s.pos + n + i))
  let gir := fun i : Nat => uniformDraw (1/2) 5 (s.stream (s.pos + 2*n + i))
  let wc := fun i : Nat => uniformDraw 0 95 (s.stream (s.pos + 3*n + i))
  let noise := fun i : Nat => normalDraw 0 50 (s.stream (s.pos + 4*n + i))
  let oil := fun i : Nat =>
    max ((1/10) * pd i + 50 * gir i - 2 * wc i + noise i) 10
  ((List.range n).map (fun i => ⟨gir i, pd i, wc i, oil i⟩),
    ⟨s.stream, s.pos + 5*n⟩)

/-- Body of `generate_choke_data` (lines 33-48).  Draw order:
`uniform(8, 64, n)` (choke size), `uniform(500, 3000, n)` and
`uniform(50, 500, n)` (whose difference is `delta_p`), `uniform(100, 2000, n)`
(`glr`), `normal(0, 50, n)` (noise).
`flow = choke_size * np.sqrt(delta_p) * (1 + 0.001 * glr) + noise` clamped by
`np.maximum(flow, 10)`.  `np.sqrt` is the external floating-point square
root; it is passed in as the parameter `sqrtFn`. -/
def generate_choke_rows (sqrtFn : ℚ → ℚ) (s : RngState) (n : Nat) :
    List ChokeRow × RngState :=
  let cs := fun i : Nat => uniformDraw 8 64 (s.stream (s.pos + i))
  let dp := fun i : Nat =>
    uniformDraw 500 3000 (s.stream (s.pos + n + i)) -
      uniformDraw 50 500 (s.stream (s.pos + 2*n + i))
  let glr := fun i : Nat => uniformDraw 100 2000 (s.stream (s.pos + 3*n + i))
  let noise := fun i : Nat => normalDraw 0 50 (s.stream (s.pos + 4*n + i))
  let flow := fun i : Nat =>
    max (cs i * sqrtFn (dp i) * (1 + (1/1000) * glr i) + noise i) 10
  ((List.range n).map (fun i => ⟨cs i, dp i, glr i, flow i⟩),
    ⟨s.stream, s.pos + 5*n⟩)

/-- The fields of a `GasLiftChokeOptimizer` object, as set by `__init__`
(lines 10-14): two optional trained models and two optional stored datasets.
A trained model is embedded as its per-row `predict` function, taking the
feature columns in dataframe order. -/
structure OptState where
  gas_lift_model : Option (ℚ → ℚ → ℚ → ℚ)
  choke_model : Option (ℚ → ℚ → ℚ → ℚ)
  gas_lift_data : Option (List GasRow)
  choke_data : Option (List ChokeRow)

/-- A freshly constructed `GasLiftChokeOptimizer()`: all four fields are
`None`. -/
def newOptimizer : OptState := ⟨none, none, none, none⟩

/-- Method `generate_gas_lift_data`: computes the dataframe, stores it in
`self.gas_lift_data`, and returns it (line 25 and 31). -/
def generate_gas_lift_data (st : OptState) (rng : RngState) (n : Nat) :
    List GasRow × OptState × RngState :=
  let (rows, rng2) := generate_gas_lift_rows rng n
  (rows, { st with gas_lift_data := some rows }, rng2)

/-- Method `generate_choke_data`: computes the dataframe, stores it in
`self.choke_data`, and returns it (line 42 and 48). -/
def generate_choke_data (sqrtFn : ℚ → ℚ) (st : OptState) (rng : RngState)
    (n : Nat) : List ChokeRow × OptState × RngState :=
  let (rows, rng2) := generate_choke_rows sqrtFn rng n
  (rows, { st with choke_data := some rows }, rng2)

/-- Size check performed by scikit-learn's `train_test_split` with
`test_size=0.2`: the test partition gets `ceil(0.2 * n)` rows and the train
partition the rest; a `ValueError` is raised when either partition would be
empty (in this program that happens exactly when `n < 2`). -/
def train_test_split_check (n : Nat) : Except PyErr Unit :=
  let n_test := (n + 4) / 5
  let n_train := n - n_test
  if n_test = 0 ∨ n_train = 0 then
    .error (.valueError "the resulting train set will be empty")
  else .ok ()

/-- Method `train_gas_lift_model` (lines 50-56).  Accessing
`self.gas_lift_data.drop(...)` with the field still `None` raises
`AttributeError`; otherwise `train_test_split` validates the partition
sizes, and on success the fitted `RandomForestRegressor` (the external
scikit-learn fit, abstracted as the parameter `fit` applied to the stored
dataset) is stored in `self.gas_lift_model`.  The printed R² score is
console output only and is not modelled. -/
def train_gas_lift_model (fit : List GasRow → ℚ → ℚ → ℚ → ℚ)
    (st : OptState) : Except PyErr Unit × OptState :=
  match st.gas_lift_data with
  | none =>
    (.error (.attributeError "NoneType object has no attribute drop"), st)
  | some data =>
    match train_test_split_check data.length with
    | .error e => (.error e, st)
    | .ok _ => (.ok (), { st with gas_lift_model := some (fit data) })

/-- Method `train_choke_model` (lines 58-64), mirror image of
`train_gas_lift_model` with the `GradientBoostingRegressor` fit abstracted
as the parameter `fit`. -/
def train_choke_model (fit : List ChokeRow → ℚ → ℚ → ℚ → ℚ)
    (st : OptState) : Except PyErr Unit × OptState :=
  match st.choke_data with
  | none =>
    (.error (.attributeError "NoneType object has no attribute drop"), st)
  | some data =>
    match train_test_split_check data.length with
    | .error e => (.error e, st)
    | .ok _ => (.ok (), { st with choke_model := some (fit data) })

/-- The value `np.linspace(a, b, num)` used at lines 68 and 80: `num` evenly
spaced points from `a` to `b` inclusive, point `i` being
`a + (b - a) * i / (num - 1)`. -/
def linspace (a b : ℚ) (num : Nat) : List ℚ :=
  (List.range num).map (fun i : Nat => a + (b - a) * (i : ℚ) / ((num : ℚ) - 1))

/-- The value `np.argmax(l)`: the index of the first occurrence of the
maximum value (NumPy documents that on ties the first occurrence is
returned), i.e. the first index whose element is ≥ every element. -/
def npArgmax (l : List ℚ) : Nat :=
  l.findIdx (fun x => l.all (fun y => decide (y ≤ x)))

/-- A Python dict of named numeric values, such as the `well_conditions` /
`flow_conditions` argument of the optimize methods: lookup by string key,
`none` meaning the key is absent (so that indexing raises `KeyError`). -/
def Ctx : Type := String → Option ℚ

/-- Dict update `ctx[k] = v` (used to state how optimize reacts to extra
keys in its conditions argument). -/
def dictInsert (ctx : Ctx) (k : String) (v : ℚ) : Ctx :=
  fun q => if q = k then some v else ctx q

/-- The 4-tuple returned by `optimize_gas_lift` / `optimize_choke`:
`(grid[best_idx], preds[best_idx], grid, preds)`. -/
structure OptResult where
  best_control : ℚ
  best_pred : ℚ
  grid : List ℚ
  preds : List ℚ
deriving DecidableEq

/-- Method `optimize_gas_lift` (lines 66-76).  Builds the 100-point
`np.linspace` grid over `gas_range`, reads `well_conditions["pressure_diff"]`
and `well_conditions["water_cut"]` (in that order — a missing key raises
`KeyError` during the dataframe construction), evaluates the model on each
grid row (batched `predict` is value-equivalent to per-row evaluation),
takes `np.argmax` of the predictions and returns
`(gas_rates[best_idx], preds[best_idx], gas_rates, preds)`.  There is no
interval or schema validation anywhere in the body; `self.gas_lift_model`
equal to `None` raises `AttributeError` at the `predict` call. -/
def optimize_gas_lift (model : Option (ℚ → ℚ → ℚ → ℚ))
    (well_conditions : Ctx) (lo hi : ℚ) : Except PyErr OptResult :=
  let gas_rates := linspace lo hi 100
  match well_conditions "pressure_diff" with
  | none => .error (.keyError "pressure_diff")
  | some pd =>
    match well_conditions "water_cut" with
    | none => .error (.keyError "water_cut")
    | some wc =>
      match model with
      | none => .error (.attributeError "NoneType object has no attribute predict")
      | some m =>
        let preds := gas_rates.map (fun g => m g pd wc)
        let best_idx := npArgmax preds
        .ok ⟨gas_rates.getD best_idx 0, preds.getD best_idx 0, gas_rates, preds⟩

/-- Method `optimize_choke` (lines 78-88), mirror image of
`optimize_gas_lift` over `choke_range` with context keys `delta_p` and `glr`
(read in that order) and the choke model. -/
def optimize_choke (model : Option (ℚ → ℚ → ℚ → ℚ))
    (flow_conditions : Ctx) (lo hi : ℚ) : Except PyErr OptResult :=
  let choke_sizes := linspace lo hi 100
  match flow_conditions "delta_p" with
  | none => .error (.keyError "delta_p")
  | some dp =>
    match flow_conditions "glr" with
    | none => .error (.keyError "glr")
    | some glr =>
      match model with
      | none => .error (.attributeError "NoneType object has no attribute predict")
      | some m =>
        let preds := choke_sizes.map (fun c => m c dp glr)
        let best_idx := npArgmax preds
        .ok ⟨choke_sizes.getD best_idx 0, preds.getD best_idx 0, choke_sizes, preds⟩

/-- `optimize_gas_lift` as a method on the object state: the body contains
no assignment to any `self` field, so the state component of the result is
the unchanged receiver. -/
def optimize_gas_lift_method (st : OptState) (well_conditions : Ctx)
    (lo hi : ℚ) : Except PyErr OptResult × OptState :=
  (optimize_gas_lift st.gas_lift_model well_conditions lo hi, st)

/-- `optimize_choke` as a method on the object state: the body contains no
assignment to any `self` field, so the state component of the result is the
unchanged receiver. -/
def optimize_choke_method (st : OptState) (flow_conditions : Ctx)
    (lo hi : ℚ) : Except PyErr OptResult × OptState :=
  (optimize_choke st.choke_model flow_conditions lo hi, st)

/-- The argmax contract of an optimization result: the winning prediction is
the maximum of the prediction curve, the winning control/prediction sit at
index `npArgmax preds`, and any index tying the maximum is at or after
`npArgmax preds`, with a control value at least the winning one. -/
def curveArgmaxOk (grid preds : List ℚ) (control pred : ℚ) : Prop :=
  pred ∈ preds ∧ (∀ y ∈ preds, y ≤ pred) ∧
    control = grid.getD (npArgmax preds) 0 ∧
    pred = preds.getD (npArgmax preds) 0 ∧
    ∀ j, j < preds.length → preds.getD j 0 = pred →
      npArgmax preds ≤ j ∧ control ≤ grid.getD j 0

/-- The grid-shape contract of an optimization result over `(a, b)`:
100 points, endpoints exactly `a` and `b`, uniform spacing `(b - a) / 99`. -/
def uniformGridOk (a b : ℚ) (grid : List ℚ) : Prop :=
  grid.length = 100 ∧ grid.getD 0 0 = a ∧ grid.getD 99 0 = b ∧
    ∀ i, i + 1 < 100 → grid.getD (i + 1) 0 - grid.getD i 0 = (b - a) / 99

/-- Whether a Python call returned normally rather than raising. -/
def exceptOk {α : Type} : Except PyErr α → Bool
  | .ok _ => true
  | .error _ => false

/-- The `well_conditions` dict of the demo call at line 127:
`{"pressure_diff": 2000, "water_cut": 30}`. -/
def demoWellConditions : Ctx := fun k =>
  if k = "pressure_diff" then some 2000
  else if k = "water_cut" then some 30 else none

/-- The `flow_conditions` dict of the demo call at line 128:
`{"delta_p": 1200, "glr": 500}`. -/
def demoFlowConditions : Ctx := fun k =>
  if k = "delta_p" then some 1200
  else if k = "glr" then some 500 else none

/-- An empty conditions dict `{}`. -/
def emptyCtx : Ctx := fun _ => none

/-- A conditions dict holding only `pressure_diff`. -/
def onlyPressureCtx : Ctx := fun k =>
  if k = "pressure_diff" then some 2000 else none

/-- A conditions dict holding only `delta_p`. -/
def onlyDeltaCtx : Ctx := fun k =>
  if k = "delta_p" then some 1200 else none

/-- A trained gas-lift surrogate used in concrete instantiations: predicts
the gas injection rate itself. -/
def demoGasModel : ℚ → ℚ → ℚ → ℚ := fun g _ _ => g

/-- A trained choke surrogate used in concrete instantiations: predicts the
choke size itself. -/
def demoChokeModel : ℚ → ℚ → ℚ → ℚ := fun c _ _ => c

/-- A concrete NumPy RNG state whose stream yields `0, 1, 2, ...` in
sequence, positioned at the start — exactly the situation right after
`np.random.seed(42)`, for one concrete (non-constant) stream. -/
def seededRng : RngState := ⟨fun i => (i : ℚ), 0⟩

/-- A concrete RNG state with the all-zero stream. -/
def zeroRng : RngState := ⟨fun _ => 0, 0⟩

/-- An optimizer state holding one-row datasets for both processes (too few
rows for `train_test_split` to produce two non-empty partitions). -/
def oneRowState : OptState :=
  ⟨none, none, some [⟨1, 2, 3, 4⟩], some [⟨1, 2, 3, 4⟩]⟩

/-! ### Helper lemmas about `npArgmax`, `linspace` and `List.getD` -/

/-- Every nonempty list of rationals has an element that dominates all
elements. -/
theorem exists_ge_all (l : List ℚ) (h : l ≠ []) : ∃ x ∈ l, ∀ y ∈ l, y ≤ x := by
  induction l with
  | nil => simp at h
  | cons a t ih =>
    rcases eq_or_ne t [] with rfl | ht
    · exact ⟨a, by simp⟩
    · obtain ⟨x, hx, hall⟩ := ih ht
      rcases le_total a x with hax | hxa
      · refine ⟨x, by simp [hx], ?_⟩
        intro y hy
        rcases List.mem_cons.1 hy with rfl | hyt
        · exact hax
        · exact hall y hyt
      · refine ⟨a, by simp, ?_⟩
        intro y hy
        rcases List.mem_cons.1 hy with rfl | hyt
        · exact le_refl y
        · exact le_trans (hall y hyt) hxa

/-- On a nonempty list, `npArgmax` is a valid index. -/
theorem npArgmax_lt_length (l : List ℚ) (h : l ≠ []) : npArgmax l < l.length := by
  apply List.findIdx_lt_length_of_exists
  obtain ⟨x, hx, hall⟩ := exists_ge_all l h
  exact ⟨x, hx, by simpa using hall⟩

/-- The element at `npArgmax` dominates every element of the list. -/
theorem le_npArgmax_getD (l : List ℚ) (h : l ≠ []) :
    ∀ y ∈ l, y ≤ l.getD (npArgmax l) 0 := by
  have hlt := npArgmax_lt_length l h
  have hp := @List.findIdx_getElem _ (fun x => l.all (fun y => decide (y ≤ x))) l hlt
  intro y hy
  rw [List.getD_eq_getElem l 0 hlt]
  simp only [List.all_eq_true, decide_eq_true_eq] at hp
  exact hp y hy

/-- `npArgmax` is the first index achieving the maximum: any index whose
element equals the argmax element is ≥ `npArgmax`. -/
theorem npArgmax_first (l : List ℚ) (h : l ≠ []) :
    ∀ j, j < l.length → l.getD j 0 = l.getD (npArgmax l) 0 → npArgmax l ≤ j := by
  intro j hj heq
  by_contra hcon
  push_neg at hcon
  have hnot := @List.not_of_lt_findIdx _ (fun x => l.all (fun y => decide (y ≤ x))) l j hcon
  simp only [Bool.not_eq_true, List.all_eq_false, decide_eq_true_eq, not_le] at hnot
  obtain ⟨y, hy, hylt⟩ := hnot
  have h1 : y ≤ l.getD (npArgmax l) 0 := le_npArgmax_getD l h y hy
  rw [← heq, List.getD_eq_getElem l 0 hj] at h1
  exact absurd h1 (not_le.2 hylt)

/-- An in-bounds `getD` is a member of the list. -/
theorem getD_mem {α : Type} (l : List α) (i : Nat) (d : α) (h : i < l.length) :
    l.getD i d ∈ l := by
  rw [List.getD_eq_getElem l d h]
  exact List.getElem_mem h

/-- Length of a `linspace` grid. -/
theorem linspace_length (a b : ℚ) (num : Nat) : (linspace a b num).length = num := by
  rw [linspace, List.length_map, List.length_range]

/-- Closed form of an in-bounds `linspace` grid point. -/
theorem linspace_getD (a b : ℚ) {num i : Nat} (h : i < num) :
    (linspace a b num).getD i 0 = a + (b - a) * (i : ℚ) / ((num : ℚ) - 1) := by
  rw [linspace, List.getD_eq_getElem?_getD, List.getElem?_map, List.getElem?_range h]
  rfl

/-- When `a ≤ b`, the `linspace` grid is monotone in the index. -/
theorem linspace_mono (a b : ℚ) {num i j : Nat} (hab : a ≤ b) (hij : i ≤ j)
    (hj : j < num) :
    (linspace a b num).getD i 0 ≤ (linspace a b num).getD j 0 := by
  rw [linspace_getD a b (lt_of_le_of_lt hij hj), linspace_getD a b hj]
  have hnum : (1 : ℚ) ≤ (num : ℚ) := by exact_mod_cast Nat.one_le_iff_ne_zero.2 (by omega)
  have hden : (0 : ℚ) ≤ (num : ℚ) - 1 := by linarith
  have hba : (0 : ℚ) ≤ b - a := by linarith
  have hijq : (i : ℚ) ≤ (j : ℚ) := by exact_mod_cast hij
  rcases eq_or_lt_of_le hden with hz | hpos
  · rw [← hz]
    simp
  · gcongr

/-- First point of a 100-point `linspace` grid. -/
theorem linspace_first (a b : ℚ) : (linspace a b 100).getD 0 0 = a := by
  rw [linspace_getD a b (by norm_num)]
  norm_num

/-- Last point of a 100-point `linspace` grid. -/
theorem linspace_last (a b : ℚ) : (linspace a b 100).getD 99 0 = b := by
  rw [linspace_getD a b (by norm_num)]
  push_cast
  ring

/-- Consecutive spacing of a 100-point `linspace` grid. -/
theorem linspace_spacing (a b : ℚ) {i : Nat} (h : i + 1 < 100) :
    (linspace a b 100).getD (i + 1) 0 - (linspace a b 100).getD i 0 = (b - a) / 99 := by
  rw [linspace_getD a b h, linspace_getD a b (by omega)]
  push_cast
  ring

/-- Core argmax lemma for one grid-search call: the values produced by the
`np.linspace` / `predict` / `np.argmax` sequence satisfy `curveArgmaxOk`. -/
theorem gridsearch_argmax (f : ℚ → ℚ) (a b : ℚ) (hab : a < b) :
    curveArgmaxOk (linspace a b 100) ((linspace a b 100).map f)
      ((linspace a b 100).getD (npArgmax ((linspace a b 100).map f)) 0)
      (((linspace a b 100).map f).getD (npArgmax ((linspace a b 100).map f)) 0) := by
  have hglen : (linspace a b 100).length = 100 := linspace_length a b 100
  have hplen : ((linspace a b 100).map f).length = 100 := by
    rw [List.length_map, hglen]
  have hne : (linspace a b 100).map f ≠ [] := by
    intro hnil
    rw [hnil] at hplen
    simp at hplen
  have hidx : npArgmax ((linspace a b 100).map f) < 100 := by
    rw [← hplen]
    exact npArgmax_lt_length _ hne
  refine ⟨getD_mem _ _ _ (by rw [hplen]; exact hidx), le_npArgmax_getD _ hne, rfl, rfl, ?_⟩
  intro j hj heq
  have hj100 : j < 100 := by rw [← hplen]; exact hj
  have hfirst := npArgmax_first _ hne j hj heq
  exact ⟨hfirst, linspace_mono a b (le_of_lt hab) hfirst hj100⟩

/-- Reduction of a successful `optimize_gas_lift` call to its explicit
result record. -/
theorem optimize_gas_lift_ok (m : ℚ → ℚ → ℚ → ℚ) (ctx : Ctx) (pd wc a b : ℚ)
    (hpd : ctx "pressure_diff" = some pd) (hwc : ctx "water_cut" = some wc) :
    optimize_gas_lift (some m) ctx a b =
      .ok ⟨(linspace a b 100).getD
             (npArgmax ((linspace a b 100).map (fun g => m g pd wc))) 0,
           ((linspace a b 100).map (fun g => m g pd wc)).getD
             (npArgmax ((linspace a b 100).map (fun g => m g pd wc))) 0,
           linspace a b 100,
           (linspace a b 100).map (fun g => m g pd wc)⟩ := by
  simp only [optimize_gas_lift, hpd, hwc]

/-- Reduction of a successful `optimize_choke` call to its explicit result
record. -/
theorem optimize_choke_ok (m : ℚ → ℚ → ℚ → ℚ) (ctx : Ctx) (dp glr a b : ℚ)
    (hdp : ctx "delta_p" = some dp) (hglr : ctx "glr" = some glr) :
    optimize_choke (some m) ctx a b =
      .ok ⟨(linspace a b 100).getD
             (npArgmax ((linspace a b 100).map (fun c => m c dp glr))) 0,
           ((linspace a b 100).map (fun c => m c dp glr)).getD
             (npArgmax ((linspace a b 100).map (fun c => m c dp glr))) 0,
           linspace a b 100,
           (linspace a b 100).map (fun c => m c dp glr)⟩ := by
  simp only [optimize_choke, hdp, hglr]

/-! ### Claim theorems -/

/-- C1: for every trained surrogate and context (with the two required
fields present) and every interval `a < b`, `optimize_gas_lift` and
`optimize_choke` return the argmax over the returned curve: the returned
predicted value equals the maximum of the returned predictions, the
returned control value is the grid point at the `np.argmax` index, and any
exact tie for the maximum is resolved to the first grid index, which
carries the lowest control value. -/
theorem gridsearch_returns_argmax_of_curve
    (mg mc : ℚ → ℚ → ℚ → ℚ) (ctxg ctxc : Ctx) (ag bg ac bc pd wc dp glr : ℚ)
    (hpd : ctxg "pressure_diff" = some pd) (hwc : ctxg "water_cut" = some wc)
    (hdp : ctxc "delta_p" = some dp) (hglr : ctxc "glr" = some glr)
    (hg : ag < bg) (hc : ac < bc) :
    ∃ rg rc : OptResult,
      optimize_gas_lift (some mg) ctxg ag bg = .ok rg ∧
      optimize_choke (some mc) ctxc ac bc = .ok rc ∧
      curveArgmaxOk rg.grid rg.preds rg.best_control rg.best_pred ∧
      curveArgmaxOk rc.grid rc.preds rc.best_control rc.best_pred := by
  refine ⟨_, _, optimize_gas_lift_ok mg ctxg pd wc ag bg hpd hwc,
    optimize_choke_ok mc ctxc dp glr ac bc hdp hglr, ?_, ?_⟩
  · exact gridsearch_argmax (fun g => mg g pd wc) ag bg hg
  · exact gridsearch_argmax (fun c => mc c dp glr) ac bc hc

/-- Witness for C1 at the demo inputs: the gas-lift optimization over
`(0.5, 5.0)` with context `{"pressure_diff": 2000, "water_cut": 30}` and the
choke optimization over `(8, 64)` with context
`{"delta_p": 1200, "glr": 500}`. -/
theorem gridsearch_returns_argmax_of_curve_witness :
    ∃ rg rc : OptResult,
      optimize_gas_lift (some demoGasModel) demoWellConditions (1/2) 5 = .ok rg ∧
      optimize_choke (some demoChokeModel) demoFlowConditions 8 64 = .ok rc ∧
      curveArgmaxOk rg.grid rg.preds rg.best_control rg.best_pred ∧
      curveArgmaxOk rc.grid rc.preds rc.best_control rc.best_pred :=
  gridsearch_returns_argmax_of_curve demoGasModel demoChokeModel
    demoWellConditions demoFlowConditions (1/2) 5 8 64 2000 30 1200 500
    rfl rfl rfl rfl (by norm_num) (by norm_num)

/-- C2: for every interval `(a, b)` with `a < b`, the curve returned by
`optimize_gas_lift` / `optimize_choke` has exactly the configured grid
resolution of points (100 in this program), its first control value is `a`,
its last is `b`, and consecutive grid points are uniformly spaced by
`(b - a) / 99`. -/
theorem gridsearch_grid_shape
    (mg mc : ℚ → ℚ → ℚ → ℚ) (ctxg ctxc : Ctx) (ag bg ac bc pd wc dp glr : ℚ)
    (hpd : ctxg "pressure_diff" = some pd) (hwc : ctxg "water_cut" = some wc)
    (hdp : ctxc "delta_p" = some dp) (hglr : ctxc "glr" = some glr)
    (hg : ag < bg) (hc : ac < bc) :
    ∃ rg rc : OptResult,
      optimize_gas_lift (some mg) ctxg ag bg = .ok rg ∧
      optimize_choke (some mc) ctxc ac bc = .ok rc ∧
      uniformGridOk ag bg rg.grid ∧ rg.preds.length = 100 ∧
      uniformGridOk ac bc rc.grid ∧ rc.preds.length = 100 := by
  refine ⟨_, _, optimize_gas_lift_ok mg ctxg pd wc ag bg hpd hwc,
    optimize_choke_ok mc ctxc dp glr ac bc hdp hglr, ?_, ?_, ?_, ?_⟩
  · exact ⟨linspace_length ag bg 100, linspace_first ag bg, linspace_last ag bg,
      fun i hi => linspace_spacing ag bg hi⟩
  · rw [List.length_map, linspace_length]
  · exact ⟨linspace_length ac bc 100, linspace_first ac bc, linspace_last ac bc,
      fun i hi => linspace_spacing ac bc hi⟩
  · rw [List.length_map, linspace_length]

/-- Witness for C2 at the demo inputs. -/
theorem gridsearch_grid_shape_witness :
    ∃ rg rc : OptResult,
      optimize_gas_lift (some demoGasModel) demoWellConditions (1/2) 5 = .ok rg ∧
      optimize_choke (some demoChokeModel) demoFlowConditions 8 64 = .ok rc ∧
      uniformGridOk (1/2) 5 rg.grid ∧ rg.preds.length = 100 ∧
      uniformGridOk 8 64 rc.grid ∧ rc.preds.length = 100 :=
  gridsearch_grid_shape demoGasModel demoChokeModel
    demoWellConditions demoFlowConditions (1/2) 5 8 64 2000 30 1200 500
    rfl rfl rfl rfl (by norm_num) (by norm_num)

/-- C3 (amended): the optimize methods perform no interval validation at
all.  Even with `low ≥ high` (the grid then simply runs downhill from `low`
to `high`), given the required context fields and a trained model they
return a normal 100-point result; no `InvalidIntervalError` is ever raised
(no such class exists in the program), and the resolution is the fixed
constant 100, not a parameter that could be `< 1`. -/
theorem optimize_no_interval_validation
    (mg mc : ℚ → ℚ → ℚ → ℚ) (ctxg ctxc : Ctx) (lo hi lo2 hi2 pd wc dp glr : ℚ)
    (hpd : ctxg "pressure_diff" = some pd) (hwc : ctxg "water_cut" = some wc)
    (hdp : ctxc "delta_p" = some dp) (hglr : ctxc "glr" = some glr)
    (hrev : hi ≤ lo) (hrev2 : hi2 ≤ lo2) :
    ∃ rg rc : OptResult,
      optimize_gas_lift (some mg) ctxg lo hi = .ok rg ∧
      rg.grid = linspace lo hi 100 ∧ rg.grid.length = 100 ∧
      optimize_choke (some mc) ctxc lo2 hi2 = .ok rc ∧
      rc.grid = linspace lo2 hi2 100 ∧ rc.grid.length = 100 := by
  refine ⟨_, _, optimize_gas_lift_ok mg ctxg pd wc lo hi hpd hwc, rfl, ?_,
    optimize_choke_ok mc ctxc dp glr lo2 hi2 hdp hglr, rfl, ?_⟩
  · exact linspace_length lo hi 100
  · exact linspace_length lo2 hi2 100

/-- Witness for the amended C3: inverted intervals `(5, 0.5)` and `(64, 8)`
still return normally. -/
theorem optimize_no_interval_validation_witness :
    ∃ rg rc : OptResult,
      optimize_gas_lift (some demoGasModel) demoWellConditions 5 (1/2) = .ok rg ∧
      rg.grid = linspace 5 (1/2) 100 ∧ rg.grid.length = 100 ∧
      optimize_choke (some demoChokeModel) demoFlowConditions 64 8 = .ok rc ∧
      rc.grid = linspace 64 8 100 ∧ rc.grid.length = 100 :=
  optimize_no_interval_validation demoGasModel demoChokeModel
    demoWellConditions demoFlowConditions 5 (1/2) 64 8 2000 30 1200 500
    rfl rfl rfl rfl (by norm_num) (by norm_num)

/-- Counterexample to C3 as stated: calls with `low ≥ high` do not fail with
`InvalidIntervalError` (or at all) — both optimize methods return normally
on inverted intervals at the demo contexts. -/
theorem optimize_inverted_interval_returns_ok :
    exceptOk (optimize_gas_lift (some demoGasModel) demoWellConditions 5 (1/2))
        = true ∧
      exceptOk (optimize_choke (some demoChokeModel) demoFlowConditions 64 8)
        = true :=
  ⟨rfl, rfl⟩

/-- C4 (amended): a context missing a required non-control field makes
optimize raise a plain `KeyError` naming the missing key
(`pressure_diff` is read before `water_cut`, `delta_p` before `glr`), not a
`SchemaMismatchError`; and a context that additionally contains the control
field (or any unknown key) is not rejected — the extra key is ignored and
the result is unchanged. -/
theorem optimize_schema_behavior
    (mg mc : ℚ → ℚ → ℚ → ℚ) (ctx1 ctx2 ctx3 ctx4 : Ctx) (a b a2 b2 pd dp : ℚ)
    (h1 : ctx1 "pressure_diff" = none)
    (h2 : ctx2 "pressure_diff" = some pd) (h3 : ctx2 "water_cut" = none)
    (h4 : ctx3 "delta_p" = none)
    (h5 : ctx4 "delta_p" = some dp) (h6 : ctx4 "glr" = none) :
    optimize_gas_lift (some mg) ctx1 a b = .error (.keyError "pressure_diff") ∧
    optimize_gas_lift (some mg) ctx2 a b = .error (.keyError "water_cut") ∧
    optimize_choke (some mc) ctx3 a2 b2 = .error (.keyError "delta_p") ∧
    optimize_choke (some mc) ctx4 a2 b2 = .error (.keyError "glr") ∧
    (∀ (ctx : Ctx) (v : ℚ),
      optimize_gas_lift (some mg) (dictInsert ctx "gas_injection_rate" v) a b
        = optimize_gas_lift (some mg) ctx a b) ∧
    (∀ (ctx : Ctx) (v : ℚ),
      optimize_choke (some mc) (dictInsert ctx "choke_size" v) a2 b2
        = optimize_choke (some mc) ctx a2 b2) := by
  refine ⟨?_, ?_, ?_, ?_, ?_, ?_⟩
  · simp only [optimize_gas_lift, h1]
  · simp only [optimize_gas_lift, h2, h3]
  · simp only [optimize_choke, h4]
  · simp only [optimize_choke, h5, h6]
  · intro ctx v
    simp [optimize_gas_lift, dictInsert]
  · intro ctx v
    simp [optimize_choke, dictInsert]

/-- Witness for the amended C4 at concrete contexts: the empty dict, a dict
with only `pressure_diff`, and a dict with only `delta_p`. -/
theorem optimize_schema_behavior_witness :
    optimize_gas_lift (some demoGasModel) emptyCtx (1/2) 5
        = .error (.keyError "pressure_diff") ∧
      optimize_gas_lift (some demoGasModel) onlyPressureCtx (1/2) 5
        = .error (.keyError "water_cut") ∧
      optimize_choke (some demoChokeModel) emptyCtx 8 64
        = .error (.keyError "delta_p") ∧
      optimize_choke (some demoChokeModel) onlyDeltaCtx 8 64
        = .error (.keyError "glr") ∧
      (∀ (ctx : Ctx) (v : ℚ),
        optimize_gas_lift (some demoGasModel)
            (dictInsert ctx "gas_injection_rate" v) (1/2) 5
          = optimize_gas_lift (some demoGasModel) ctx (1/2) 5) ∧
      (∀ (ctx : Ctx) (v : ℚ),
        optimize_choke (some demoChokeModel) (dictInsert ctx "choke_size" v) 8 64
          = optimize_choke (some demoChokeModel) ctx 8 64) :=
  optimize_schema_behavior demoGasModel demoChokeModel
    emptyCtx onlyPressureCtx emptyCtx onlyDeltaCtx (1/2) 5 8 64 2000 1200
    rfl rfl rfl rfl rfl rfl

/-- Counterexample to C4 as stated: a context that includes the control
field is not rejected with `SchemaMismatchError` — both optimize methods
return normally when the control key is present; and a context missing a
required field raises `KeyError`, not `SchemaMismatchError`. -/
theorem optimize_with_control_key_not_rejected :
    exceptOk (optimize_gas_lift (some demoGasModel)
        (dictInsert demoWellConditions "gas_injection_rate" 3) (1/2) 5) = true ∧
      exceptOk (optimize_choke (some demoChokeModel)
        (dictInsert demoFlowConditions "choke_size" 32) 8 64) = true ∧
      optimize_gas_lift (some demoGasModel) emptyCtx (1/2) 5
        = .error (.keyError "pressure_diff") :=
  ⟨rfl, rfl, rfl⟩

/-- C5 (amended): training on a stored dataset with fewer than 2 rows fails
before producing any output — but with the generic `ValueError` raised by
scikit-learn's `train_test_split` when a partition would be empty, not with
a dedicated `InsufficientDataError` (no such class exists in the program);
the optimizer state is left unchanged. -/
theorem train_small_dataset_value_error
    (fg : List GasRow → ℚ → ℚ → ℚ → ℚ) (fc : List ChokeRow → ℚ → ℚ → ℚ → ℚ)
    (st : OptState) (dg : List GasRow) (dc : List ChokeRow)
    (hg : st.gas_lift_data = some dg) (hng : dg.length < 2)
    (hc : st.choke_data = some dc) (hnc : dc.length < 2) :
    (train_gas_lift_model fg st).1
        = .error (.valueError "the resulting train set will be empty") ∧
      (train_gas_lift_model fg st).2 = st ∧
      (train_choke_model fc st).1
        = .error (.valueError "the resulting train set will be empty") ∧
      (train_choke_model fc st).2 = st := by
  have hcg : train_test_split_check dg.length
      = .error (.valueError "the resulting train set will be empty") := by
    have h01 : dg.length = 0 ∨ dg.length = 1 := by omega
    rcases h01 with h | h <;> rw [h] <;> rfl
  have hcc : train_test_split_check dc.length
      = .error (.valueError "the resulting train set will be empty") := by
    have h01 : dc.length = 0 ∨ dc.length = 1 := by omega
    rcases h01 with h | h <;> rw [h] <;> rfl
  refine ⟨?_, ?_, ?_, ?_⟩ <;>
    simp only [train_gas_lift_model, train_choke_model, hg, hc, hcg, hcc]

/-- Witness for the amended C5 at a concrete one-row dataset. -/
theorem train_small_dataset_value_error_witness :
    (train_gas_lift_model (fun _ _ _ _ => 0) oneRowState).1
        = .error (.valueError "the resulting train set will be empty") ∧
      (train_gas_lift_model (fun _ _ _ _ => 0) oneRowState).2 = oneRowState ∧
      (train_choke_model (fun _ _ _ _ => 0) oneRowState).1
        = .error (.valueError "the resulting train set will be empty") ∧
      (train_choke_model (fun _ _ _ _ => 0) oneRowState).2 = oneRowState :=
  train_small_dataset_value_error (fun _ _ _ _ => 0) (fun _ _ _ _ => 0)
    oneRowState [⟨1, 2, 3, 4⟩] [⟨1, 2, 3, 4⟩] rfl (by simp) rfl (by simp)

/-- Counterexample to C5 as stated: on a one-row dataset both train methods
fail with scikit-learn's `ValueError`, which is not the
`InsufficientDataError` the claim names. -/
theorem train_small_dataset_not_insufficient_data_error :
    (train_gas_lift_model (fun _ _ _ _ => 0) oneRowState).1
        = .error (.valueError "the resulting train set will be empty") ∧
      (train_gas_lift_model (fun _ _ _ _ => 0) oneRowState).1
        ≠ .error .insufficientDataError ∧
      (train_choke_model (fun _ _ _ _ => 0) oneRowState).1
        = .error (.valueError "the resulting train set will be empty") ∧
      (train_choke_model (fun _ _ _ _ => 0) oneRowState).1
        ≠ .error .insufficientDataError :=
  ⟨rfl, fun h => PyErr.noConfusion (Except.error.inj h),
    rfl, fun h => PyErr.noConfusion (Except.error.inj h)⟩

/-- C6 (amended): each generator is a deterministic function of the global
RNG state — two calls whose RNG states agree in position and on the stream
window the call consumes (5·n draws) return bit-identical datasets.  In
particular whole-program reruns from the fixed module seed reproduce the
same datasets, but two successive calls within one run start at different
stream positions and are not guaranteed identical. -/
theorem generate_deterministic_in_rng_state
    (s t : RngState) (n : Nat) (sq : ℚ → ℚ)
    (hpos : s.pos = t.pos)
    (hagree : ∀ i, i < 5*n → s.stream (s.pos + i) = t.stream (t.pos + i)) :
    (generate_gas_lift_rows s n).1 = (generate_gas_lift_rows t n).1 ∧
      (generate_choke_rows sq s n).1 = (generate_choke_rows sq t n).1 := by
  constructor
  · simp only [generate_gas_lift_rows]
    apply List.map_congr_left
    intro i hmem
    rw [List.mem_range] at hmem
    have e1 : s.stream (s.pos + i) = t.stream (t.pos + i) :=
      hagree i (by omega)
    have e2 : s.stream (s.pos + n + i) = t.stream (t.pos + n + i) := by
      have h := hagree (n + i) (by omega)
      rwa [← Nat.add_assoc, ← Nat.add_assoc] at h
    have e3 : s.stream (s.pos + 2*n + i) = t.stream (t.pos + 2*n + i) := by
      have h := hagree (2*n + i) (by omega)
      rwa [← Nat.add_assoc, ← Nat.add_assoc] at h
    have e4 : s.stream (s.pos + 3*n + i) = t.stream (t.pos + 3*n + i) := by
      have h := hagree (3*n + i) (by omega)
      rwa [← Nat.add_assoc, ← Nat.add_assoc] at h
    have e5 : s.stream (s.pos + 4*n + i) = t.stream (t.pos + 4*n + i) := by
      have h := hagree (4*n + i) (by omega)
      rwa [← Nat.add_assoc, ← Nat.add_assoc] at h
    rw [e1, e2, e3, e4, e5]
  · simp only [generate_choke_rows]
    apply List.map_congr_left
    intro i hmem
    rw [List.mem_range] at hmem
    have e1 : s.stream (s.pos + i) = t.stream (t.pos + i) :=
      hagree i (by omega)
    have e2 : s.stream (s.pos + n + i) = t.stream (t.pos + n + i) := by
      have h := hagree (n + i) (by omega)
      rwa [← Nat.add_assoc, ← Nat.add_assoc] at h
    have e3 : s.stream (s.pos + 2*n + i) = t.stream (t.pos + 2*n + i) := by
      have h := hagree (2*n + i) (by omega)
      rwa [← Nat.add_assoc, ← Nat.add_assoc] at h
    have e4 : s.stream (s.pos + 3*n + i) = t.stream (t.pos + 3*n + i) := by
      have h := hagree (3*n + i) (by omega)
      rwa [← Nat.add_assoc, ← Nat.add_assoc] at h
    have e5 : s.stream (s.pos + 4*n + i) = t.stream (t.pos + 4*n + i) := by
      have h := hagree (4*n + i) (by omega)
      rwa [← Nat.add_assoc, ← Nat.add_assoc] at h
    rw [e1, e2, e3, e4, e5]

/-- Witness for the amended C6: two RNG states with identical stream and
position generate identical one-row datasets. -/
theorem generate_deterministic_in_rng_state_witness :
    (generate_gas_lift_rows zeroRng 1).1 = (generate_gas_lift_rows zeroRng 1).1 ∧
      (generate_choke_rows (fun q => q) zeroRng 1).1
        = (generate_choke_rows (fun q => q) zeroRng 1).1 :=
  generate_deterministic_in_rng_state zeroRng zeroRng 1 (fun q => q)
    rfl (fun _ _ => rfl)

/-- Counterexample to C6 as stated: with the seed fixed once at module
import, calling `generate_gas_lift_data` twice in a row with identical
parameters does NOT return bit-identical datasets, because the second call
starts from the advanced global RNG position left by the first.  Shown on a
concrete (non-constant) stream with `n = 1`. -/
theorem generate_twice_differs :
    (generate_gas_lift_rows seededRng 1).1
      ≠ (generate_gas_lift_rows (generate_gas_lift_rows seededRng 1).2 1).1 := by
  intro h
  have h2 := congrArg (fun l => (l.headD ⟨0, 0, 0, 0⟩).pressure_diff) h
  simp only [generate_gas_lift_rows, seededRng, uniformDraw, normalDraw,
    List.headD_eq_head?_getD, List.head?_map, List.head?_range] at h2
  norm_num at h2

/-- C7: every row of every generated dataset has its target
(`oil_production` / `flow_rate`) at least the floor value 10, whatever the
raw formula and noise would give, because of the final `np.maximum(·, 10)`
clamp. -/
theorem generated_target_above_floor
    (s : RngState) (n : Nat) (sq : ℚ → ℚ) (rg : GasRow) (rc : ChokeRow)
    (hg : rg ∈ (generate_gas_lift_rows s n).1)
    (hc : rc ∈ (generate_choke_rows sq s n).1) :
    10 ≤ rg.oil_production ∧ 10 ≤ rc.flow_rate := by
  constructor
  · simp only [generate_gas_lift_rows, List.mem_map] at hg
    obtain ⟨i, hi, hrow⟩ := hg
    rw [← hrow]
    exact le_max_right _ _
  · simp only [generate_choke_rows, List.mem_map] at hc
    obtain ⟨i, hi, hrow⟩ := hc
    rw [← hrow]
    exact le_max_right _ _

/-- Witness for C7: the first row of a concrete one-row generated dataset
for each process. -/
theorem generated_target_above_floor_witness :
    10 ≤ ((generate_gas_lift_rows zeroRng 1).1.getD 0 ⟨0, 0, 0, 0⟩).oil_production ∧
      10 ≤ ((generate_choke_rows (fun q => q) zeroRng 1).1.getD 0
        ⟨0, 0, 0, 0⟩).flow_rate :=
  generated_target_above_floor zeroRng 1 (fun q => q) _ _
    (getD_mem _ 0 _ (by simp [generate_gas_lift_rows]))
    (getD_mem _ 0 _ (by simp [generate_choke_rows]))

/-- C8: the optimize methods are pure with respect to the optimizer object:
they leave every field of the state unchanged, and the two processes'
optimizations commute — running them in either order yields identical
results and identical final states. -/
theorem optimize_pure_frame (st : OptState) (ctxg ctxc : Ctx)
    (ag bg ac bc : ℚ) :
    (optimize_gas_lift_method st ctxg ag bg).2 = st ∧
      (optimize_choke_method st ctxc ac bc).2 = st ∧
      (optimize_choke_method (optimize_gas_lift_method st ctxg ag bg).2
          ctxc ac bc).1
        = (optimize_choke_method st ctxc ac bc).1 ∧
      (optimize_gas_lift_method (optimize_choke_method st ctxc ac bc).2
          ctxg ag bg).1
        = (optimize_gas_lift_method st ctxg ag bg).1 ∧
      (optimize_gas_lift_method (optimize_choke_method st ctxc ac bc).2
          ctxg ag bg).2
        = (optimize_choke_method (optimize_gas_lift_method st ctxg ag bg).2
          ctxc ac bc).2 :=
  ⟨rfl, rfl, rfl, rfl, rfl⟩

/-- C9: each optimize method reads only its two named non-control fields
from the conditions dict — any two dicts agreeing on those fields (whatever
other keys either carries, including the control field) give identical
results. -/
theorem optimize_reads_only_named_fields
    (mg mc : Option (ℚ → ℚ → ℚ → ℚ)) (ctx1 ctx2 ctx3 ctx4 : Ctx)
    (ag bg ac bc : ℚ)
    (h1 : ctx1 "pressure_diff" = ctx2 "pressure_diff")
    (h2 : ctx1 "water_cut" = ctx2 "water_cut")
    (h3 : ctx3 "delta_p" = ctx4 "delta_p")
    (h4 : ctx3 "glr" = ctx4 "glr") :
    optimize_gas_lift mg ctx1 ag bg = optimize_gas_lift mg ctx2 ag bg ∧
      optimize_choke mc ctx3 ac bc = optimize_choke mc ctx4 ac bc := by
  constructor
  · simp only [optimize_gas_lift, h1, h2]
  · simp only [optimize_choke, h3, h4]

/-- Witness for C9: the demo contexts against the same contexts with the
control field added as an extra key — the results coincide, so the extra
key is ignored, not rejected. -/
theorem optimize_reads_only_named_fields_witness :
    optimize_gas_lift (some demoGasModel) demoWellConditions (1/2) 5
        = optimize_gas_lift (some demoGasModel)
            (dictInsert demoWellConditions "gas_injection_rate" 3) (1/2) 5 ∧
      optimize_choke (some demoChokeModel) demoFlowConditions 8 64
        = optimize_choke (some demoChokeModel)
            (dictInsert demoFlowConditions "choke_size" 32) 8 64 :=
  optimize_reads_only_named_fields (some demoGasModel) (some demoChokeModel)
    demoWellConditions (dictInsert demoWellConditions "gas_injection_rate" 3)
    demoFlowConditions (dictInsert demoFlowConditions "choke_size" 32)
    (1/2) 5 8 64 rfl rfl rfl rfl

/-- C10: on a freshly constructed optimizer, calling either train method
before the corresponding generate fails — the stored dataset field is still
`None`, so `.drop` raises `AttributeError` — and the state is left
unchanged. -/
theorem train_before_generate_raises
    (fg : List GasRow → ℚ → ℚ → ℚ → ℚ)
    (fc : List ChokeRow → ℚ → ℚ → ℚ → ℚ) :
    (train_gas_lift_model fg newOptimizer).1
        = .error (.attributeError "NoneType object has no attribute drop") ∧
      (train_choke_model fc newOptimizer).1
        = .error (.attributeError "NoneType object has no attribute drop") ∧
      (train_gas_lift_model fg newOptimizer).2 = newOptimizer ∧
      (train_choke_model fc newOptimizer).2 = newOptimizer :=
  ⟨rfl, rfl, rfl, rfl⟩
